import Mathlib

/-!
# Collective options model (`torch/csrc/distributed/c10d/Types.hpp`)

A shallow embedding of the header `Types.hpp` of namespace `c10d`: the
enumeration `ReduceOp`, the constant `kUnsetTimeout` and the ten option
records `BroadcastOptions` .. `BarrierOptions`.

Conventions of the embedding.

* `enum class ReduceOp : std::uint8_t` has a fixed underlying type, so a value
  of `ReduceOp` is any code in 0..255; the nine declared enumerators are the
  values with codes 0..8.  `ReduceOp.toUInt8` gives the code of a value and
  `ReduceOp.ofUInt8` is the conversion `static_cast<ReduceOp>`.
* `std::chrono::milliseconds` is a record holding a signed tick count.
* `int64_t` and `int` fields are integers.  The header performs no arithmetic
  on them, so no wrap-around can arise, and every statement made for all
  integers holds in particular for all values of the machine type.
* `std::vector<int>` is a list, `push_back` appends at the end.
* A record is a Lean structure whose field defaults are the default member
  initialisers of the header; default construction is `{}`.
* The header has no member functions.  What a caller can do with a record is
  construct it, copy it (the implicit member-wise copy constructor) and assign
  its public fields; each record therefore comes with `defaultCtor`, `copy`,
  an inductive `Assign` listing the possible field assignments, and `assign`.
-/

namespace c10d

/-- Storing a number in a `std::uint8_t`: reduction modulo `2 ^ 8`. -/
def wrapUInt8 (n : Nat) : Nat := n % 2 ^ 8

/-- A value of `enum class ReduceOp : std::uint8_t`.  The enumeration has a fixed
underlying type, so its values are the values of that type: a value is a code
in 0..255, whether or not an enumerator is declared with this code. -/
structure ReduceOp where
  code : Fin 256
deriving DecidableEq, Repr, Fintype

/-- The enumerator `SUM = 0`. -/
def ReduceOp.SUM : ReduceOp := ⟨0⟩

/-- The enumerator `AVG`, one more than `SUM`. -/
def ReduceOp.AVG : ReduceOp := ⟨1⟩

/-- The enumerator `PRODUCT`, one more than `AVG`. -/
def ReduceOp.PRODUCT : ReduceOp := ⟨2⟩

/-- The enumerator `MIN`, one more than `PRODUCT`. -/
def ReduceOp.MIN : ReduceOp := ⟨3⟩

/-- The enumerator `MAX`, one more than `MIN`. -/
def ReduceOp.MAX : ReduceOp := ⟨4⟩

/-- The enumerator `BAND` (bitwise AND), one more than `MAX`. -/
def ReduceOp.BAND : ReduceOp := ⟨5⟩

/-- The enumerator `BOR` (bitwise OR), one more than `BAND`. -/
def ReduceOp.BOR : ReduceOp := ⟨6⟩

/-- The enumerator `BXOR` (bitwise XOR), one more than `BOR`. -/
def ReduceOp.BXOR : ReduceOp := ⟨7⟩

/-- The enumerator `UNUSED`, one more than `BXOR`. -/
def ReduceOp.UNUSED : ReduceOp := ⟨8⟩

/-- The underlying `std::uint8_t` code of a value, `static_cast<std::uint8_t>(op)`. -/
def ReduceOp.toUInt8 (op : ReduceOp) : Nat := op.code.val

/-- The nine enumerators as a list, in declaration order. -/
def ReduceOp.all : List ReduceOp :=
  [.SUM, .AVG, .PRODUCT, .MIN, .MAX, .BAND, .BOR, .BXOR, .UNUSED]

/-- The conversion `static_cast<ReduceOp>(c)`: the number is first converted to
the underlying type `std::uint8_t`, and the result is the value with that
code. -/
def ReduceOp.ofUInt8 (c : Nat) : ReduceOp :=
  ⟨⟨wrapUInt8 c, Nat.mod_lt c (by decide)⟩⟩

/-- The duration type `std::chrono::milliseconds`: a signed number of ticks. -/
structure milliseconds where
  count : Int
deriving DecidableEq, Repr

/-- The constant `kUnsetTimeout = std::chrono::milliseconds(-1)`. -/
def kUnsetTimeout : milliseconds := ⟨-1⟩

/-- The member function `push_back` of `std::vector<int>`. -/
def push_back (v : List Int) (x : Int) : List Int := v ++ [x]

/-! ## The option records -/

/-- The record `struct BroadcastOptions`. -/
structure BroadcastOptions where
  rootRank : Int := 0
  rootTensor : Int := 0
  timeout : milliseconds := kUnsetTimeout
deriving DecidableEq, Repr

/-- The record `struct AllreduceOptions`. -/
structure AllreduceOptions where
  reduceOp : ReduceOp := ReduceOp.SUM
  timeout : milliseconds := kUnsetTimeout
deriving DecidableEq, Repr

/-- The record `struct AllreduceCoalescedOptions : AllreduceOptions {}`. -/
structure AllreduceCoalescedOptions extends AllreduceOptions where
deriving DecidableEq, Repr

/-- The record `struct ReduceOptions`. -/
structure ReduceOptions where
  reduceOp : ReduceOp := ReduceOp.SUM
  rootRank : Int := 0
  rootTensor : Int := 0
  timeout : milliseconds := kUnsetTimeout
deriving DecidableEq, Repr

/-- The record `struct AllgatherOptions`. -/
structure AllgatherOptions where
  timeout : milliseconds := kUnsetTimeout
deriving DecidableEq, Repr

/-- The record `struct GatherOptions`. -/
structure GatherOptions where
  rootRank : Int := 0
  timeout : milliseconds := kUnsetTimeout
deriving DecidableEq, Repr

/-- The record `struct ScatterOptions`. -/
structure ScatterOptions where
  rootRank : Int := 0
  timeout : milliseconds := kUnsetTimeout
deriving DecidableEq, Repr

/-- The record `struct ReduceScatterOptions`. -/
structure ReduceScatterOptions where
  reduceOp : ReduceOp := ReduceOp.SUM
  timeout : milliseconds := kUnsetTimeout
deriving DecidableEq, Repr

/-- The record `struct AllToAllOptions`. -/
structure AllToAllOptions where
  timeout : milliseconds := kUnsetTimeout
deriving DecidableEq, Repr

/-- The record `struct BarrierOptions`. -/
structure BarrierOptions where
  device_ids : List Int := []
  timeout : milliseconds := kUnsetTimeout
deriving DecidableEq, Repr

/-! ## Default construction -/

/-- Default construction `BroadcastOptions{}`. -/
def BroadcastOptions.defaultCtor : BroadcastOptions := {}

/-- Default construction `AllreduceOptions{}`. -/
def AllreduceOptions.defaultCtor : AllreduceOptions := {}

/-- Default construction `AllreduceCoalescedOptions{}`. -/
def AllreduceCoalescedOptions.defaultCtor : AllreduceCoalescedOptions := {}

/-- Default construction `ReduceOptions{}`. -/
def ReduceOptions.defaultCtor : ReduceOptions := {}

/-- Default construction `AllgatherOptions{}`. -/
def AllgatherOptions.defaultCtor : AllgatherOptions := {}

/-- Default construction `GatherOptions{}`. -/
def GatherOptions.defaultCtor : GatherOptions := {}

/-- Default construction `ScatterOptions{}`. -/
def ScatterOptions.defaultCtor : ScatterOptions := {}

/-- Default construction `ReduceScatterOptions{}`. -/
def ReduceScatterOptions.defaultCtor : ReduceScatterOptions := {}

/-- Default construction `AllToAllOptions{}`. -/
def AllToAllOptions.defaultCtor : AllToAllOptions := {}

/-- Default construction `BarrierOptions{}`. -/
def BarrierOptions.defaultCtor : BarrierOptions := {}

/-! ## Copying

The implicit copy constructor copies member by member. -/

/-- The implicit copy constructor of `BroadcastOptions`. -/
def BroadcastOptions.copy (o : BroadcastOptions) : BroadcastOptions :=
  { rootRank := o.rootRank, rootTensor := o.rootTensor, timeout := o.timeout }

/-- The implicit copy constructor of `AllreduceOptions`. -/
def AllreduceOptions.copy (o : AllreduceOptions) : AllreduceOptions :=
  { reduceOp := o.reduceOp, timeout := o.timeout }

/-- The implicit copy constructor of `AllreduceCoalescedOptions`. -/
def AllreduceCoalescedOptions.copy (o : AllreduceCoalescedOptions) :
    AllreduceCoalescedOptions :=
  { toAllreduceOptions := o.toAllreduceOptions.copy }

/-- The implicit copy constructor of `ReduceOptions`. -/
def ReduceOptions.copy (o : ReduceOptions) : ReduceOptions :=
  { reduceOp := o.reduceOp, rootRank := o.rootRank, rootTensor := o.rootTensor,
    timeout := o.timeout }

/-- The implicit copy constructor of `AllgatherOptions`. -/
def AllgatherOptions.copy (o : AllgatherOptions) : AllgatherOptions :=
  { timeout := o.timeout }

/-- The implicit copy constructor of `GatherOptions`. -/
def GatherOptions.copy (o : GatherOptions) : GatherOptions :=
  { rootRank := o.rootRank, timeout := o.timeout }

/-- The implicit copy constructor of `ScatterOptions`. -/
def ScatterOptions.copy (o : ScatterOptions) : ScatterOptions :=
  { rootRank := o.rootRank, timeout := o.timeout }

/-- The implicit copy constructor of `ReduceScatterOptions`. -/
def ReduceScatterOptions.copy (o : ReduceScatterOptions) : ReduceScatterOptions :=
  { reduceOp := o.reduceOp, timeout := o.timeout }

/-- The implicit copy constructor of `AllToAllOptions`. -/
def AllToAllOptions.copy (o : AllToAllOptions) : AllToAllOptions :=
  { timeout := o.timeout }

/-- The implicit copy constructor of `BarrierOptions`. -/
def BarrierOptions.copy (o : BarrierOptions) : BarrierOptions :=
  { device_ids := o.device_ids, timeout := o.timeout }

/-! ## Field assignment

One constructor of `Assign` per public field `f`, standing for the statement
`o.f = v;`.  For `BarrierOptions` there is also `o.device_ids.push_back(x);`. -/

/-- The assignments to the fields of `BroadcastOptions`. -/
inductive BroadcastOptions.Assign where
  | rootRank (v : Int)
  | rootTensor (v : Int)
  | timeout (v : milliseconds)
deriving DecidableEq, Repr

/-- Carrying out one assignment on a `BroadcastOptions`. -/
def BroadcastOptions.assign (o : BroadcastOptions) : BroadcastOptions.Assign → BroadcastOptions
  | .rootRank v => { o with rootRank := v }
  | .rootTensor v => { o with rootTensor := v }
  | .timeout v => { o with timeout := v }

/-- The assignments to the fields of `AllreduceOptions`. -/
inductive AllreduceOptions.Assign where
  | reduceOp (v : ReduceOp)
  | timeout (v : milliseconds)
deriving DecidableEq, Repr

/-- Carrying out one assignment on an `AllreduceOptions`. -/
def AllreduceOptions.assign (o : AllreduceOptions) : AllreduceOptions.Assign → AllreduceOptions
  | .reduceOp v => { o with reduceOp := v }
  | .timeout v => { o with timeout := v }

/-- The assignments to the fields of `AllreduceCoalescedOptions`. -/
inductive AllreduceCoalescedOptions.Assign where
  | reduceOp (v : ReduceOp)
  | timeout (v : milliseconds)
deriving DecidableEq, Repr

/-- Carrying out one assignment on an `AllreduceCoalescedOptions`. -/
def AllreduceCoalescedOptions.assign (o : AllreduceCoalescedOptions) :
    AllreduceCoalescedOptions.Assign → AllreduceCoalescedOptions
  | .reduceOp v => { o with reduceOp := v }
  | .timeout v => { o with timeout := v }

/-- The assignments to the fields of `ReduceOptions`. -/
inductive ReduceOptions.Assign where
  | reduceOp (v : ReduceOp)
  | rootRank (v : Int)
  | rootTensor (v : Int)
  | timeout (v : milliseconds)
deriving DecidableEq, Repr

/-- Carrying out one assignment on a `ReduceOptions`. -/
def ReduceOptions.assign (o : ReduceOptions) : ReduceOptions.Assign → ReduceOptions
  | .reduceOp v => { o with reduceOp := v }
  | .rootRank v => { o with rootRank := v }
  | .rootTensor v => { o with rootTensor := v }
  | .timeout v => { o with timeout := v }

/-- The assignments to the fields of `AllgatherOptions`. -/
inductive AllgatherOptions.Assign where
  | timeout (v : milliseconds)
deriving DecidableEq, Repr

/-- Carrying out one assignment on an `AllgatherOptions`. -/
def AllgatherOptions.assign (o : AllgatherOptions) : AllgatherOptions.Assign → AllgatherOptions
  | .timeout v => { o with timeout := v }

/-- The assignments to the fields of `GatherOptions`. -/
inductive GatherOptions.Assign where
  | rootRank (v : Int)
  | timeout (v : milliseconds)
deriving DecidableEq, Repr

/-- Carrying out one assignment on a `GatherOptions`. -/
def GatherOptions.assign (o : GatherOptions) : GatherOptions.Assign → GatherOptions
  | .rootRank v => { o with rootRank := v }
  | .timeout v => { o with timeout := v }

/-- The assignments to the fields of `ScatterOptions`. -/
inductive ScatterOptions.Assign where
  | rootRank (v : Int)
  | timeout (v : milliseconds)
deriving DecidableEq, Repr

/-- Carrying out one assignment on a `ScatterOptions`. -/
def ScatterOptions.assign (o : ScatterOptions) : ScatterOptions.Assign → ScatterOptions
  | .rootRank v => { o with rootRank := v }
  | .timeout v => { o with timeout := v }

/-- The assignments to the fields of `ReduceScatterOptions`. -/
inductive ReduceScatterOptions.Assign where
  | reduceOp (v : ReduceOp)
  | timeout (v : milliseconds)
deriving DecidableEq, Repr

/-- Carrying out one assignment on a `ReduceScatterOptions`. -/
def ReduceScatterOptions.assign (o : ReduceScatterOptions) :
    ReduceScatterOptions.Assign → ReduceScatterOptions
  | .reduceOp v => { o with reduceOp := v }
  | .timeout v => { o with timeout := v }

/-- The assignments to the fields of `AllToAllOptions`. -/
inductive AllToAllOptions.Assign where
  | timeout (v : milliseconds)
deriving DecidableEq, Repr

/-- Carrying out one assignment on an `AllToAllOptions`. -/
def AllToAllOptions.assign (o : AllToAllOptions) : AllToAllOptions.Assign → AllToAllOptions
  | .timeout v => { o with timeout := v }

/-- The assignments to the fields of `BarrierOptions`. -/
inductive BarrierOptions.Assign where
  | device_ids (v : List Int)
  | timeout (v : milliseconds)
  | push_back (x : Int)
deriving DecidableEq, Repr

/-- Carrying out one assignment on a `BarrierOptions`. -/
def BarrierOptions.assign (o : BarrierOptions) : BarrierOptions.Assign → BarrierOptions
  | .device_ids v => { o with device_ids := v }
  | .timeout v => { o with timeout := v }
  | .push_back x => { o with device_ids := c10d.push_back o.device_ids x }

/-! ## Assigning a subset of the fields

A subset of the fields together with the values supplied for them is given by
one optional value per field: `some v` for a field that is assigned `v`, `none`
for a field that is left alone. -/

/-- The assignment built by `mk` is carried out when a value is supplied. -/
def assignIf {T A V : Type} (assign : T → A → T) (mk : V → A) (o : T) : Option V → T
  | some v => assign o (mk v)
  | none => o

/-- A default-constructed `BroadcastOptions` on which the given subset of
fields is assigned. -/
def BroadcastOptions.assignSubset (r : Option Int) (k : Option Int) (t : Option milliseconds) :
    BroadcastOptions :=
  let o1 := assignIf assign Assign.rootRank defaultCtor r
  let o2 := assignIf assign Assign.rootTensor o1 k
  assignIf assign Assign.timeout o2 t

/-- A default-constructed `AllreduceOptions` on which the given subset of
fields is assigned. -/
def AllreduceOptions.assignSubset (op : Option ReduceOp) (t : Option milliseconds) :
    AllreduceOptions :=
  let o1 := assignIf assign Assign.reduceOp defaultCtor op
  assignIf assign Assign.timeout o1 t

/-- A default-constructed `AllreduceCoalescedOptions` on which the given subset of
fields is assigned. -/
def AllreduceCoalescedOptions.assignSubset (op : Option ReduceOp) (t : Option milliseconds) :
    AllreduceCoalescedOptions :=
  let o1 := assignIf assign Assign.reduceOp defaultCtor op
  assignIf assign Assign.timeout o1 t

/-- A default-constructed `ReduceOptions` on which the given subset of
fields is assigned. -/
def ReduceOptions.assignSubset (op : Option ReduceOp) (r : Option Int) (k : Option Int)
    (t : Option milliseconds) :
    ReduceOptions :=
  let o1 := assignIf assign Assign.reduceOp defaultCtor op
  let o2 := assignIf assign Assign.rootRank o1 r
  let o3 := assignIf assign Assign.rootTensor o2 k
  assignIf assign Assign.timeout o3 t

/-- A default-constructed `AllgatherOptions` on which the given subset of
fields is assigned. -/
def AllgatherOptions.assignSubset (t : Option milliseconds) : AllgatherOptions :=
  assignIf assign Assign.timeout defaultCtor t

/-- A default-constructed `GatherOptions` on which the given subset of
fields is assigned. -/
def GatherOptions.assignSubset (r : Option Int) (t : Option milliseconds) : GatherOptions :=
  let o1 := assignIf assign Assign.rootRank defaultCtor r
  assignIf assign Assign.timeout o1 t

/-- A default-constructed `ScatterOptions` on which the given subset of
fields is assigned. -/
def ScatterOptions.assignSubset (r : Option Int) (t : Option milliseconds) : ScatterOptions :=
  let o1 := assignIf assign Assign.rootRank defaultCtor r
  assignIf assign Assign.timeout o1 t

/-- A default-constructed `ReduceScatterOptions` on which the given subset of
fields is assigned. -/
def ReduceScatterOptions.assignSubset (op : Option ReduceOp) (t : Option milliseconds) :
    ReduceScatterOptions :=
  let o1 := assignIf assign Assign.reduceOp defaultCtor op
  assignIf assign Assign.timeout o1 t

/-- A default-constructed `AllToAllOptions` on which the given subset of
fields is assigned. -/
def AllToAllOptions.assignSubset (t : Option milliseconds) : AllToAllOptions :=
  assignIf assign Assign.timeout defaultCtor t

/-- A default-constructed `BarrierOptions` on which the given subset of
fields is assigned. -/
def BarrierOptions.assignSubset (ds : Option (List Int)) (t : Option milliseconds) :
    BarrierOptions :=
  let o1 := assignIf assign Assign.device_ids defaultCtor ds
  assignIf assign Assign.timeout o1 t

/-- The elements of `xs` appended one by one to `o.device_ids`. -/
def BarrierOptions.appendAll (o : BarrierOptions) (xs : List Int) : BarrierOptions :=
  xs.foldl (fun b x => b.assign (BarrierOptions.Assign.push_back x)) o

/-! ## Two variables: an original and its copy -/

/-- The state of a program fragment `T original = ...; T copied = original;`
holding two variables of record type `T`. -/
structure Vars (T : Type) where
  original : T
  copied : T

/-- The declaration `T copied = original;` with copy constructor `copy`. -/
def Vars.copyInit {T : Type} (copy : T → T) (o : T) : Vars T :=
  { original := o, copied := copy o }

/-- An assignment `copied.f = v;` with `assign` the assignment of `T`. -/
def Vars.assignCopied {T A : Type} (assign : T → A → T) (s : Vars T) (a : A) : Vars T :=
  { s with copied := assign s.copied a }

/-! ## Predicates on timeouts -/

/-- A timeout is acceptable when it is the sentinel or a non-negative duration. -/
def validTimeout (t : milliseconds) : Prop := t = kUnsetTimeout ∨ 0 ≤ t.count


/-! ## Theorems -/

/-! ### Auxiliary lemmas -/

/-- A property kept by every admissible step is kept by a whole run of steps. -/
theorem foldl_preserves {T A : Type} (step : T → A → T) (P : T → Prop) (Q : A → Prop)
    (hstep : ∀ o a, P o → Q a → P (step o a)) :
    ∀ (as : List A) (o : T), P o → (∀ a ∈ as, Q a) → P (as.foldl step o) := by
  intro as
  induction as with
  | nil => intro o ho _; exact ho
  | cons a rest ih =>
    intro o ho hq
    rw [List.foldl_cons]
    apply ih
    · exact hstep o a ho (hq a (List.mem_cons_self a rest))
    · intro b hb
      exact hq b (List.mem_cons_of_mem a hb)

/-- Assignments to the copy never touch the original. -/
theorem Vars.foldl_assignCopied_original {T A : Type} (assign : T → A → T) :
    ∀ (as : List A) (s : Vars T),
      (as.foldl (Vars.assignCopied assign) s).original = s.original := by
  intro as
  induction as with
  | nil => intro s; rfl
  | cons a rest ih =>
    intro s
    rw [List.foldl_cons, ih]
    rfl

/-- Appending `xs` one by one to a barrier record extends `device_ids` by `xs`
and keeps `timeout`. -/
theorem BarrierOptions.appendAll_spec (xs : List Int) :
    ∀ o : BarrierOptions,
      (o.appendAll xs).device_ids = o.device_ids ++ xs ∧ (o.appendAll xs).timeout = o.timeout := by
  induction xs with
  | nil => intro o; simp [BarrierOptions.appendAll]
  | cons x rest ih =>
    intro o
    have h := ih (o.assign (BarrierOptions.Assign.push_back x))
    simp only [BarrierOptions.appendAll, List.foldl_cons] at h ⊢
    refine ⟨?_, ?_⟩
    · rw [h.1]
      simp [BarrierOptions.assign, push_back]
    · rw [h.2]
      rfl

/-- A run of assignments on a `BroadcastOptions` keeps the timeout
acceptable when every timeout it assigns is acceptable. -/
theorem validTimeout_foldl_BroadcastOptions
    (as : List BroadcastOptions.Assign) (o : BroadcastOptions)
    (ho : validTimeout o.timeout)
    (has : ∀ t, BroadcastOptions.Assign.timeout t ∈ as → validTimeout t) :
    validTimeout (as.foldl BroadcastOptions.assign o).timeout := by
  refine foldl_preserves BroadcastOptions.assign (fun o => validTimeout o.timeout)
    (fun a => ∀ t, a = BroadcastOptions.Assign.timeout t → validTimeout t) ?_ as o ho ?_
  · intro o a ho ha
    cases a <;> first | exact ha _ rfl | exact ho
  · intro a ha t hat
    exact has t (hat ▸ ha)

/-- A run of assignments on an `AllreduceOptions` keeps the timeout
acceptable when every timeout it assigns is acceptable. -/
theorem validTimeout_foldl_AllreduceOptions
    (as : List AllreduceOptions.Assign) (o : AllreduceOptions)
    (ho : validTimeout o.timeout)
    (has : ∀ t, AllreduceOptions.Assign.timeout t ∈ as → validTimeout t) :
    validTimeout (as.foldl AllreduceOptions.assign o).timeout := by
  refine foldl_preserves AllreduceOptions.assign (fun o => validTimeout o.timeout)
    (fun a => ∀ t, a = AllreduceOptions.Assign.timeout t → validTimeout t) ?_ as o ho ?_
  · intro o a ho ha
    cases a <;> first | exact ha _ rfl | exact ho
  · intro a ha t hat
    exact has t (hat ▸ ha)

/-- A run of assignments on an `AllreduceCoalescedOptions` keeps the timeout
acceptable when every timeout it assigns is acceptable. -/
theorem validTimeout_foldl_AllreduceCoalescedOptions
    (as : List AllreduceCoalescedOptions.Assign) (o : AllreduceCoalescedOptions)
    (ho : validTimeout o.timeout)
    (has : ∀ t, AllreduceCoalescedOptions.Assign.timeout t ∈ as → validTimeout t) :
    validTimeout (as.foldl AllreduceCoalescedOptions.assign o).timeout := by
  refine foldl_preserves AllreduceCoalescedOptions.assign (fun o => validTimeout o.timeout)
    (fun a => ∀ t, a = AllreduceCoalescedOptions.Assign.timeout t → validTimeout t) ?_ as o ho ?_
  · intro o a ho ha
    cases a <;> first | exact ha _ rfl | exact ho
  · intro a ha t hat
    exact has t (hat ▸ ha)

/-- A run of assignments on a `ReduceOptions` keeps the timeout
acceptable when every timeout it assigns is acceptable. -/
theorem validTimeout_foldl_ReduceOptions
    (as : List ReduceOptions.Assign) (o : ReduceOptions)
    (ho : validTimeout o.timeout)
    (has : ∀ t, ReduceOptions.Assign.timeout t ∈ as → validTimeout t) :
    validTimeout (as.foldl ReduceOptions.assign o).timeout := by
  refine foldl_preserves ReduceOptions.assign (fun o => validTimeout o.timeout)
    (fun a => ∀ t, a = ReduceOptions.Assign.timeout t → validTimeout t) ?_ as o ho ?_
  · intro o a ho ha
    cases a <;> first | exact ha _ rfl | exact ho
  · intro a ha t hat
    exact has t (hat ▸ ha)

/-- A run of assignments on an `AllgatherOptions` keeps the timeout
acceptable when every timeout it assigns is acceptable. -/
theorem validTimeout_foldl_AllgatherOptions
    (as : List AllgatherOptions.Assign) (o : AllgatherOptions)
    (ho : validTimeout o.timeout)
    (has : ∀ t, AllgatherOptions.Assign.timeout t ∈ as → validTimeout t) :
    validTimeout (as.foldl AllgatherOptions.assign o).timeout := by
  refine foldl_preserves AllgatherOptions.assign (fun o => validTimeout o.timeout)
    (fun a => ∀ t, a = AllgatherOptions.Assign.timeout t → validTimeout t) ?_ as o ho ?_
  · intro o a ho ha
    cases a
    exact ha _ rfl
  · intro a ha t hat
    exact has t (hat ▸ ha)

/-- A run of assignments on a `GatherOptions` keeps the timeout
acceptable when every timeout it assigns is acceptable. -/
theorem validTimeout_foldl_GatherOptions
    (as : List GatherOptions.Assign) (o : GatherOptions)
    (ho : validTimeout o.timeout)
    (has : ∀ t, GatherOptions.Assign.timeout t ∈ as → validTimeout t) :
    validTimeout (as.foldl GatherOptions.assign o).timeout := by
  refine foldl_preserves GatherOptions.assign (fun o => validTimeout o.timeout)
    (fun a => ∀ t, a = GatherOptions.Assign.timeout t → validTimeout t) ?_ as o ho ?_
  · intro o a ho ha
    cases a <;> first | exact ha _ rfl | exact ho
  · intro a ha t hat
    exact has t (hat ▸ ha)

/-- A run of assignments on a `ScatterOptions` keeps the timeout
acceptable when every timeout it assigns is acceptable. -/
theorem validTimeout_foldl_ScatterOptions
    (as : List ScatterOptions.Assign) (o : ScatterOptions)
    (ho : validTimeout o.timeout)
    (has : ∀ t, ScatterOptions.Assign.timeout t ∈ as → validTimeout t) :
    validTimeout (as.foldl ScatterOptions.assign o).timeout := by
  refine foldl_preserves ScatterOptions.assign (fun o => validTimeout o.timeout)
    (fun a => ∀ t, a = ScatterOptions.Assign.timeout t → validTimeout t) ?_ as o ho ?_
  · intro o a ho ha
    cases a <;> first | exact ha _ rfl | exact ho
  · intro a ha t hat
    exact has t (hat ▸ ha)

/-- A run of assignments on a `ReduceScatterOptions` keeps the timeout
acceptable when every timeout it assigns is acceptable. -/
theorem validTimeout_foldl_ReduceScatterOptions
    (as : List ReduceScatterOptions.Assign) (o : ReduceScatterOptions)
    (ho : validTimeout o.timeout)
    (has : ∀ t, ReduceScatterOptions.Assign.timeout t ∈ as → validTimeout t) :
    validTimeout (as.foldl ReduceScatterOptions.assign o).timeout := by
  refine foldl_preserves ReduceScatterOptions.assign (fun o => validTimeout o.timeout)
    (fun a => ∀ t, a = ReduceScatterOptions.Assign.timeout t → validTimeout t) ?_ as o ho ?_
  · intro o a ho ha
    cases a <;> first | exact ha _ rfl | exact ho
  · intro a ha t hat
    exact has t (hat ▸ ha)

/-- A run of assignments on an `AllToAllOptions` keeps the timeout
acceptable when every timeout it assigns is acceptable. -/
theorem validTimeout_foldl_AllToAllOptions
    (as : List AllToAllOptions.Assign) (o : AllToAllOptions)
    (ho : validTimeout o.timeout)
    (has : ∀ t, AllToAllOptions.Assign.timeout t ∈ as → validTimeout t) :
    validTimeout (as.foldl AllToAllOptions.assign o).timeout := by
  refine foldl_preserves AllToAllOptions.assign (fun o => validTimeout o.timeout)
    (fun a => ∀ t, a = AllToAllOptions.Assign.timeout t → validTimeout t) ?_ as o ho ?_
  · intro o a ho ha
    cases a
    exact ha _ rfl
  · intro a ha t hat
    exact has t (hat ▸ ha)

/-- A run of assignments on a `BarrierOptions` keeps the timeout
acceptable when every timeout it assigns is acceptable. -/
theorem validTimeout_foldl_BarrierOptions
    (as : List BarrierOptions.Assign) (o : BarrierOptions)
    (ho : validTimeout o.timeout)
    (has : ∀ t, BarrierOptions.Assign.timeout t ∈ as → validTimeout t) :
    validTimeout (as.foldl BarrierOptions.assign o).timeout := by
  refine foldl_preserves BarrierOptions.assign (fun o => validTimeout o.timeout)
    (fun a => ∀ t, a = BarrierOptions.Assign.timeout t → validTimeout t) ?_ as o ho ?_
  · intro o a ho ha
    cases a <;> first | exact ha _ rfl | exact ho
  · intro a ha t hat
    exact has t (hat ▸ ha)

/-- C1: default construction of each of the ten option records yields the
documented defaults: `rootRank = 0`, `rootTensor = 0`, `reduceOp = SUM`,
`device_ids` empty, and `timeout = kUnsetTimeout` in every record. -/
theorem default_construction_yields_documented_defaults :
    (BroadcastOptions.defaultCtor.rootRank = 0 ∧
      BroadcastOptions.defaultCtor.rootTensor = 0 ∧
      BroadcastOptions.defaultCtor.timeout = kUnsetTimeout) ∧
    (AllreduceOptions.defaultCtor.reduceOp = ReduceOp.SUM ∧
      AllreduceOptions.defaultCtor.timeout = kUnsetTimeout) ∧
    (AllreduceCoalescedOptions.defaultCtor.reduceOp = ReduceOp.SUM ∧
      AllreduceCoalescedOptions.defaultCtor.timeout = kUnsetTimeout) ∧
    (ReduceOptions.defaultCtor.reduceOp = ReduceOp.SUM ∧
      ReduceOptions.defaultCtor.rootRank = 0 ∧
      ReduceOptions.defaultCtor.rootTensor = 0 ∧
      ReduceOptions.defaultCtor.timeout = kUnsetTimeout) ∧
    AllgatherOptions.defaultCtor.timeout = kUnsetTimeout ∧
    (GatherOptions.defaultCtor.rootRank = 0 ∧
      GatherOptions.defaultCtor.timeout = kUnsetTimeout) ∧
    (ScatterOptions.defaultCtor.rootRank = 0 ∧
      ScatterOptions.defaultCtor.timeout = kUnsetTimeout) ∧
    (ReduceScatterOptions.defaultCtor.reduceOp = ReduceOp.SUM ∧
      ReduceScatterOptions.defaultCtor.timeout = kUnsetTimeout) ∧
    AllToAllOptions.defaultCtor.timeout = kUnsetTimeout ∧
    (BarrierOptions.defaultCtor.device_ids = [] ∧
      BarrierOptions.defaultCtor.timeout = kUnsetTimeout) := by
  refine ⟨⟨rfl, rfl, rfl⟩, ⟨rfl, rfl⟩, ⟨rfl, rfl⟩, ⟨rfl, rfl, rfl, rfl⟩, rfl, ⟨rfl, rfl⟩,
    ⟨rfl, rfl⟩, ⟨rfl, rfl⟩, rfl, ⟨rfl, rfl⟩⟩

/-- C2, as stated, fails: the value `static_cast<ReduceOp>(9)` is a `ReduceOp`
that is none of `SUM, AVG, PRODUCT, MIN, MAX, BAND, BOR, BXOR, UNUSED`, and an
`AllreduceOptions` stores it in `reduceOp`. -/
theorem ReduceOp_closed_set_counterexample :
    ¬ (ReduceOp.ofUInt8 9 = ReduceOp.SUM ∨ ReduceOp.ofUInt8 9 = ReduceOp.AVG ∨
      ReduceOp.ofUInt8 9 = ReduceOp.PRODUCT ∨ ReduceOp.ofUInt8 9 = ReduceOp.MIN ∨
      ReduceOp.ofUInt8 9 = ReduceOp.MAX ∨ ReduceOp.ofUInt8 9 = ReduceOp.BAND ∨
      ReduceOp.ofUInt8 9 = ReduceOp.BOR ∨ ReduceOp.ofUInt8 9 = ReduceOp.BXOR ∨
      ReduceOp.ofUInt8 9 = ReduceOp.UNUSED) ∧
    (ReduceOp.ofUInt8 9).toUInt8 = 9 ∧
    (AllreduceOptions.defaultCtor.assign (.reduceOp (ReduceOp.ofUInt8 9))).reduceOp
      = ReduceOp.ofUInt8 9 := by
  decide

/-- C2, amended: `ReduceOp` declares exactly nine named variants `SUM, AVG,
PRODUCT, MIN, MAX, BAND, BOR, BXOR, UNUSED`; they are pairwise different, and
they are exactly the values whose code is at most 8.  The type has 256 values:
every code below 256 is the code of a value obtained by conversion, and the
values with codes 9..255 are none of the nine. -/
theorem ReduceOp_nine_named_variants_of_256_values :
    ReduceOp.all = [ReduceOp.SUM, ReduceOp.AVG, ReduceOp.PRODUCT, ReduceOp.MIN, ReduceOp.MAX,
      ReduceOp.BAND, ReduceOp.BOR, ReduceOp.BXOR, ReduceOp.UNUSED] ∧
    ReduceOp.all.Nodup ∧
    ReduceOp.all.length = 9 ∧
    (∀ op : ReduceOp, op ∈ ReduceOp.all ↔ op.toUInt8 ≤ 8) ∧
    (∀ op : ReduceOp, op.toUInt8 ≤ 8 →
      op = ReduceOp.SUM ∨ op = ReduceOp.AVG ∨ op = ReduceOp.PRODUCT ∨ op = ReduceOp.MIN ∨
      op = ReduceOp.MAX ∨ op = ReduceOp.BAND ∨ op = ReduceOp.BOR ∨ op = ReduceOp.BXOR ∨
      op = ReduceOp.UNUSED) ∧
    Fintype.card ReduceOp = 256 ∧
    (∀ c : Nat, c < 256 → (ReduceOp.ofUInt8 c).toUInt8 = c) ∧
    (∀ c : Nat, 9 ≤ c → c < 256 → ReduceOp.ofUInt8 c ∉ ReduceOp.all) := by
  have hmem : ∀ op : ReduceOp, op ∈ ReduceOp.all ↔ op.toUInt8 ≤ 8 := by
    rintro ⟨⟨n, hn⟩⟩
    have key : (⟨⟨n, hn⟩⟩ : ReduceOp) ∈ ReduceOp.all ↔
        (n = 0 ∨ n = 1 ∨ n = 2 ∨ n = 3 ∨ n = 4 ∨ n = 5 ∨ n = 6 ∨ n = 7 ∨ n = 8) := by
      simp [ReduceOp.all, ReduceOp.SUM, ReduceOp.AVG, ReduceOp.PRODUCT, ReduceOp.MIN,
        ReduceOp.MAX, ReduceOp.BAND, ReduceOp.BOR, ReduceOp.BXOR, ReduceOp.UNUSED,
        Fin.ext_iff]
      exact Iff.rfl
    rw [key]
    simp only [ReduceOp.toUInt8]
    omega
  have hcode : ∀ c : Nat, c < 256 → (ReduceOp.ofUInt8 c).toUInt8 = c := by
    intro c hc
    simp only [ReduceOp.ofUInt8, ReduceOp.toUInt8, wrapUInt8]
    exact Nat.mod_eq_of_lt hc
  refine ⟨rfl, by decide, rfl, hmem, ?_, ?_, hcode, ?_⟩
  · intro op h
    have hm := (hmem op).2 h
    simpa [ReduceOp.all] using hm
  · rw [Fintype.card_congr ⟨ReduceOp.code, ReduceOp.mk, fun _ => rfl, fun _ => rfl⟩]
    exact Fintype.card_fin 256
  · intro c h9 hc hm
    have h8 := (hmem _).1 hm
    rw [hcode c hc] at h8
    omega

/-- Witness for C2, amended: `MAX` has code 4, at most 8, so it is one of the
nine; the code 200 converts to a value with code 200 that is none of them. -/
theorem ReduceOp_nine_named_variants_of_256_values_witness :
    (ReduceOp.MAX.toUInt8 ≤ 8 ∧
      (ReduceOp.MAX = ReduceOp.SUM ∨ ReduceOp.MAX = ReduceOp.AVG ∨
        ReduceOp.MAX = ReduceOp.PRODUCT ∨ ReduceOp.MAX = ReduceOp.MIN ∨
        ReduceOp.MAX = ReduceOp.MAX ∨ ReduceOp.MAX = ReduceOp.BAND ∨
        ReduceOp.MAX = ReduceOp.BOR ∨ ReduceOp.MAX = ReduceOp.BXOR ∨
        ReduceOp.MAX = ReduceOp.UNUSED)) ∧
    ((9 : Nat) ≤ 200 ∧ (200 : Nat) < 256 ∧
      (ReduceOp.ofUInt8 200).toUInt8 = 200 ∧
      ReduceOp.ofUInt8 200 ∉ ReduceOp.all) :=
  ⟨⟨by decide, ReduceOp_nine_named_variants_of_256_values.2.2.2.2.1 ReduceOp.MAX (by decide)⟩,
    ⟨by decide, by decide,
      ReduceOp_nine_named_variants_of_256_values.2.2.2.2.2.2.1 200 (by decide),
      ReduceOp_nine_named_variants_of_256_values.2.2.2.2.2.2.2 200 (by decide) (by decide)⟩⟩

/-- C3: `AllreduceCoalescedOptions` adds no field to `AllreduceOptions`: the
base of a default-constructed `AllreduceCoalescedOptions` is the
default-constructed `AllreduceOptions` (`reduceOp = SUM`, `timeout` the
sentinel), the conversion to the base is a bijection that preserves `reduceOp`
and `timeout`, and two values with equal `reduceOp` and equal `timeout` are
equal. -/
theorem AllreduceCoalescedOptions_adds_no_fields :
    AllreduceCoalescedOptions.defaultCtor.toAllreduceOptions = AllreduceOptions.defaultCtor ∧
    AllreduceCoalescedOptions.defaultCtor.reduceOp = AllreduceOptions.defaultCtor.reduceOp ∧
    AllreduceCoalescedOptions.defaultCtor.timeout = AllreduceOptions.defaultCtor.timeout ∧
    AllreduceCoalescedOptions.defaultCtor.reduceOp = ReduceOp.SUM ∧
    AllreduceCoalescedOptions.defaultCtor.timeout = kUnsetTimeout ∧
    Function.Bijective AllreduceCoalescedOptions.toAllreduceOptions ∧
    (∀ o : AllreduceCoalescedOptions,
      o.toAllreduceOptions.reduceOp = o.reduceOp ∧ o.toAllreduceOptions.timeout = o.timeout) ∧
    (∀ a b : AllreduceCoalescedOptions,
      a.reduceOp = b.reduceOp → a.timeout = b.timeout → a = b) := by
  refine ⟨rfl, rfl, rfl, rfl, rfl, ⟨?_, ?_⟩, fun _ => ⟨rfl, rfl⟩, ?_⟩
  · rintro ⟨⟨ra, ta⟩⟩ ⟨⟨rb, tb⟩⟩ h
    simpa using h
  · intro b
    exact ⟨⟨b⟩, rfl⟩
  · rintro ⟨⟨ra, ta⟩⟩ ⟨⟨rb, tb⟩⟩ h1 h2
    simp only at h1 h2
    subst h1 h2
    rfl

/-- Witness for C3 at two coalesced records built separately with
`reduceOp = MAX` and a timeout of 250 ms. -/
theorem AllreduceCoalescedOptions_adds_no_fields_witness :
    ((AllreduceCoalescedOptions.defaultCtor.assign (.reduceOp .MAX)).assign
        (.timeout ⟨250⟩)).reduceOp
      = ((AllreduceCoalescedOptions.defaultCtor.assign (.timeout ⟨250⟩)).assign
        (.reduceOp .MAX)).reduceOp ∧
    ((AllreduceCoalescedOptions.defaultCtor.assign (.reduceOp .MAX)).assign
        (.timeout ⟨250⟩)).timeout
      = ((AllreduceCoalescedOptions.defaultCtor.assign (.timeout ⟨250⟩)).assign
        (.reduceOp .MAX)).timeout ∧
    (AllreduceCoalescedOptions.defaultCtor.assign (.reduceOp .MAX)).assign (.timeout ⟨250⟩)
      = (AllreduceCoalescedOptions.defaultCtor.assign (.timeout ⟨250⟩)).assign (.reduceOp .MAX) :=
  ⟨by decide, by decide,
    AllreduceCoalescedOptions_adds_no_fields.2.2.2.2.2.2.2 _ _ (by decide) (by decide)⟩

/-- C7: the sentinel `kUnsetTimeout` is the fixed duration of exactly -1
millisecond, which is negative, so no duration of `t ≥ 0` milliseconds equals
it. -/
theorem kUnsetTimeout_distinct_from_real_timeouts :
    kUnsetTimeout = milliseconds.mk (-1) ∧
    kUnsetTimeout.count = -1 ∧
    kUnsetTimeout.count < 0 ∧
    (∀ t : milliseconds, 0 ≤ t.count → t ≠ kUnsetTimeout) := by
  refine ⟨rfl, rfl, by decide, ?_⟩
  intro t ht h
  rw [h] at ht
  exact absurd ht (by decide)

/-- Witness for C7 at the durations of 0 ms and of 500 ms. -/
theorem kUnsetTimeout_distinct_from_real_timeouts_witness :
    (0 : Int) ≤ (milliseconds.mk 0).count ∧ milliseconds.mk 0 ≠ kUnsetTimeout ∧
    milliseconds.mk 500 ≠ kUnsetTimeout :=
  ⟨by decide,
    kUnsetTimeout_distinct_from_real_timeouts.2.2.2 ⟨0⟩ (by decide),
    kUnsetTimeout_distinct_from_real_timeouts.2.2.2 ⟨500⟩ (by decide)⟩

/-- C9: each record carries exactly its documented fields: a `ScatterOptions`
is determined by `(rootRank, timeout)`, assigning `rootRank = 1` and
`timeout = 1000 ms` reads back exactly those two values, and an
`AllgatherOptions` and an `AllToAllOptions` are each determined by `timeout`
alone. -/
theorem records_carry_exactly_documented_fields :
    (∀ a b : ScatterOptions, a.rootRank = b.rootRank → a.timeout = b.timeout → a = b) ∧
    (∀ o : ScatterOptions, o = ScatterOptions.mk o.rootRank o.timeout) ∧
    ((ScatterOptions.defaultCtor.assign (.rootRank 1)).assign (.timeout ⟨1000⟩)
        = ScatterOptions.mk 1 ⟨1000⟩ ∧
      ((ScatterOptions.defaultCtor.assign (.rootRank 1)).assign (.timeout ⟨1000⟩)).rootRank = 1 ∧
      ((ScatterOptions.defaultCtor.assign (.rootRank 1)).assign (.timeout ⟨1000⟩)).timeout
        = ⟨1000⟩) ∧
    (∀ a b : AllgatherOptions, a.timeout = b.timeout → a = b) ∧
    (∀ o : AllgatherOptions, o = AllgatherOptions.mk o.timeout) ∧
    (∀ a b : AllToAllOptions, a.timeout = b.timeout → a = b) ∧
    (∀ o : AllToAllOptions, o = AllToAllOptions.mk o.timeout) := by
  refine ⟨?_, fun _ => rfl, ⟨rfl, rfl, rfl⟩, ?_, fun _ => rfl, ?_, fun _ => rfl⟩
  · rintro ⟨ra, ta⟩ ⟨rb, tb⟩ h1 h2
    simp only at h1 h2
    subst h1 h2
    rfl
  · rintro ⟨ta⟩ ⟨tb⟩ h
    simp only at h
    subst h
    rfl
  · rintro ⟨ta⟩ ⟨tb⟩ h
    simp only at h
    subst h
    rfl

/-- Witness for C9: a `ScatterOptions` assigned `timeout` then `rootRank`
equals the one assigned `rootRank` then `timeout`, and two `AllgatherOptions`
(two `AllToAllOptions`) assigned the same timeout are equal. -/
theorem records_carry_exactly_documented_fields_witness :
    (((ScatterOptions.defaultCtor.assign (.timeout ⟨1000⟩)).assign (.rootRank 1)).rootRank
        = ((ScatterOptions.defaultCtor.assign (.rootRank 1)).assign (.timeout ⟨1000⟩)).rootRank ∧
      ((ScatterOptions.defaultCtor.assign (.timeout ⟨1000⟩)).assign (.rootRank 1)).timeout
        = ((ScatterOptions.defaultCtor.assign (.rootRank 1)).assign (.timeout ⟨1000⟩)).timeout ∧
      (ScatterOptions.defaultCtor.assign (.timeout ⟨1000⟩)).assign (.rootRank 1)
        = (ScatterOptions.defaultCtor.assign (.rootRank 1)).assign (.timeout ⟨1000⟩)) ∧
    ((AllgatherOptions.defaultCtor.assign (.timeout ⟨1000⟩)).timeout
        = (AllgatherOptions.mk ⟨1000⟩).timeout ∧
      AllgatherOptions.defaultCtor.assign (.timeout ⟨1000⟩) = AllgatherOptions.mk ⟨1000⟩) ∧
    ((AllToAllOptions.defaultCtor.assign (.timeout ⟨1000⟩)).timeout
        = (AllToAllOptions.mk ⟨1000⟩).timeout ∧
      AllToAllOptions.defaultCtor.assign (.timeout ⟨1000⟩) = AllToAllOptions.mk ⟨1000⟩) :=
  ⟨⟨by decide, by decide,
      records_carry_exactly_documented_fields.1 _ _ (by decide) (by decide)⟩,
    ⟨by decide, records_carry_exactly_documented_fields.2.2.2.1 _ _ (by decide)⟩,
    ⟨by decide, records_carry_exactly_documented_fields.2.2.2.2.2.1 _ _ (by decide)⟩⟩

/-- C4: field assignment is independent per field: on a default-constructed
record of each of the ten types, for every subset of its fields and every
choice of values, each assigned field reads back the value supplied and each
unassigned field holds its documented default.  In particular a
`BroadcastOptions` with `rootRank` set to 2 and `rootTensor` set to 0 has
`rootRank = 2`, `rootTensor = 0` and `timeout = kUnsetTimeout`.  Moreover, on
any record, one assignment (or `push_back`) leaves every other field as it
was. -/
theorem field_assignment_independent_per_field :
    (∀ (r : Option Int) (k : Option Int) (t : Option milliseconds),
      (BroadcastOptions.assignSubset r k t).rootRank = r.getD 0 ∧
      (BroadcastOptions.assignSubset r k t).rootTensor = k.getD 0 ∧
      (BroadcastOptions.assignSubset r k t).timeout = t.getD kUnsetTimeout) ∧
    (∀ (op : Option ReduceOp) (t : Option milliseconds),
      (AllreduceOptions.assignSubset op t).reduceOp = op.getD ReduceOp.SUM ∧
      (AllreduceOptions.assignSubset op t).timeout = t.getD kUnsetTimeout) ∧
    (∀ (op : Option ReduceOp) (t : Option milliseconds),
      (AllreduceCoalescedOptions.assignSubset op t).reduceOp = op.getD ReduceOp.SUM ∧
      (AllreduceCoalescedOptions.assignSubset op t).timeout = t.getD kUnsetTimeout) ∧
    (∀ (op : Option ReduceOp) (r : Option Int) (k : Option Int) (t : Option milliseconds),
      (ReduceOptions.assignSubset op r k t).reduceOp = op.getD ReduceOp.SUM ∧
      (ReduceOptions.assignSubset op r k t).rootRank = r.getD 0 ∧
      (ReduceOptions.assignSubset op r k t).rootTensor = k.getD 0 ∧
      (ReduceOptions.assignSubset op r k t).timeout = t.getD kUnsetTimeout) ∧
    (∀ (t : Option milliseconds),
      (AllgatherOptions.assignSubset t).timeout = t.getD kUnsetTimeout) ∧
    (∀ (r : Option Int) (t : Option milliseconds),
      (GatherOptions.assignSubset r t).rootRank = r.getD 0 ∧
      (GatherOptions.assignSubset r t).timeout = t.getD kUnsetTimeout) ∧
    (∀ (r : Option Int) (t : Option milliseconds),
      (ScatterOptions.assignSubset r t).rootRank = r.getD 0 ∧
      (ScatterOptions.assignSubset r t).timeout = t.getD kUnsetTimeout) ∧
    (∀ (op : Option ReduceOp) (t : Option milliseconds),
      (ReduceScatterOptions.assignSubset op t).reduceOp = op.getD ReduceOp.SUM ∧
      (ReduceScatterOptions.assignSubset op t).timeout = t.getD kUnsetTimeout) ∧
    (∀ (t : Option milliseconds),
      (AllToAllOptions.assignSubset t).timeout = t.getD kUnsetTimeout) ∧
    (∀ (ds : Option (List Int)) (t : Option milliseconds),
      (BarrierOptions.assignSubset ds t).device_ids = ds.getD [] ∧
      (BarrierOptions.assignSubset ds t).timeout = t.getD kUnsetTimeout) ∧
    ((BroadcastOptions.assignSubset (some 2) (some 0) none).rootRank = 2 ∧
      (BroadcastOptions.assignSubset (some 2) (some 0) none).rootTensor = 0 ∧
      (BroadcastOptions.assignSubset (some 2) (some 0) none).timeout = kUnsetTimeout) ∧
    (∀ (o : BroadcastOptions) (r : Int) (k : Int) (t : milliseconds),
      (o.assign (BroadcastOptions.Assign.rootRank r)).rootTensor = o.rootTensor ∧
      (o.assign (BroadcastOptions.Assign.rootRank r)).timeout = o.timeout ∧
      (o.assign (BroadcastOptions.Assign.rootTensor k)).rootRank = o.rootRank ∧
      (o.assign (BroadcastOptions.Assign.rootTensor k)).timeout = o.timeout ∧
      (o.assign (BroadcastOptions.Assign.timeout t)).rootRank = o.rootRank ∧
      (o.assign (BroadcastOptions.Assign.timeout t)).rootTensor = o.rootTensor) ∧
    (∀ (o : AllreduceOptions) (op : ReduceOp) (t : milliseconds),
      (o.assign (AllreduceOptions.Assign.reduceOp op)).timeout = o.timeout ∧
      (o.assign (AllreduceOptions.Assign.timeout t)).reduceOp = o.reduceOp) ∧
    (∀ (o : AllreduceCoalescedOptions) (op : ReduceOp) (t : milliseconds),
      (o.assign (AllreduceCoalescedOptions.Assign.reduceOp op)).timeout = o.timeout ∧
      (o.assign (AllreduceCoalescedOptions.Assign.timeout t)).reduceOp = o.reduceOp) ∧
    (∀ (o : ReduceOptions) (op : ReduceOp) (r : Int) (k : Int) (t : milliseconds),
      (o.assign (ReduceOptions.Assign.reduceOp op)).rootRank = o.rootRank ∧
      (o.assign (ReduceOptions.Assign.reduceOp op)).rootTensor = o.rootTensor ∧
      (o.assign (ReduceOptions.Assign.reduceOp op)).timeout = o.timeout ∧
      (o.assign (ReduceOptions.Assign.rootRank r)).reduceOp = o.reduceOp ∧
      (o.assign (ReduceOptions.Assign.rootRank r)).rootTensor = o.rootTensor ∧
      (o.assign (ReduceOptions.Assign.rootRank r)).timeout = o.timeout ∧
      (o.assign (ReduceOptions.Assign.rootTensor k)).reduceOp = o.reduceOp ∧
      (o.assign (ReduceOptions.Assign.rootTensor k)).rootRank = o.rootRank ∧
      (o.assign (ReduceOptions.Assign.rootTensor k)).timeout = o.timeout ∧
      (o.assign (ReduceOptions.Assign.timeout t)).reduceOp = o.reduceOp ∧
      (o.assign (ReduceOptions.Assign.timeout t)).rootRank = o.rootRank ∧
      (o.assign (ReduceOptions.Assign.timeout t)).rootTensor = o.rootTensor) ∧
    (∀ (o : GatherOptions) (r : Int) (t : milliseconds),
      (o.assign (GatherOptions.Assign.rootRank r)).timeout = o.timeout ∧
      (o.assign (GatherOptions.Assign.timeout t)).rootRank = o.rootRank) ∧
    (∀ (o : ScatterOptions) (r : Int) (t : milliseconds),
      (o.assign (ScatterOptions.Assign.rootRank r)).timeout = o.timeout ∧
      (o.assign (ScatterOptions.Assign.timeout t)).rootRank = o.rootRank) ∧
    (∀ (o : ReduceScatterOptions) (op : ReduceOp) (t : milliseconds),
      (o.assign (ReduceScatterOptions.Assign.reduceOp op)).timeout = o.timeout ∧
      (o.assign (ReduceScatterOptions.Assign.timeout t)).reduceOp = o.reduceOp) ∧
    (∀ (o : BarrierOptions) (ds : List Int) (t : milliseconds) (x : Int),
      (o.assign (BarrierOptions.Assign.device_ids ds)).timeout = o.timeout ∧
      (o.assign (BarrierOptions.Assign.timeout t)).device_ids = o.device_ids ∧
      (o.assign (BarrierOptions.Assign.push_back x)).timeout = o.timeout) := by
  refine ⟨?_, ?_, ?_, ?_, ?_, ?_, ?_, ?_, ?_, ?_, ⟨rfl, rfl, rfl⟩,
    fun _ _ _ _ => ⟨rfl, rfl, rfl, rfl, rfl, rfl⟩,
    fun _ _ _ => ⟨rfl, rfl⟩,
    fun _ _ _ => ⟨rfl, rfl⟩,
    fun _ _ _ _ _ => ⟨rfl, rfl, rfl, rfl, rfl, rfl, rfl, rfl, rfl, rfl, rfl, rfl⟩,
    fun _ _ _ => ⟨rfl, rfl⟩,
    fun _ _ _ => ⟨rfl, rfl⟩,
    fun _ _ _ => ⟨rfl, rfl⟩,
    fun _ _ _ _ => ⟨rfl, rfl, rfl⟩⟩
  · intro r k t
    cases r <;> cases k <;> cases t <;> exact ⟨rfl, rfl, rfl⟩
  · intro op t
    cases op <;> cases t <;> exact ⟨rfl, rfl⟩
  · intro op t
    cases op <;> cases t <;> exact ⟨rfl, rfl⟩
  · intro op r k t
    cases op <;> cases r <;> cases k <;> cases t <;> exact ⟨rfl, rfl, rfl, rfl⟩
  · intro t
    cases t <;> rfl
  · intro r t
    cases r <;> cases t <;> exact ⟨rfl, rfl⟩
  · intro r t
    cases r <;> cases t <;> exact ⟨rfl, rfl⟩
  · intro op t
    cases op <;> cases t <;> exact ⟨rfl, rfl⟩
  · intro t
    cases t <;> rfl
  · intro ds t
    cases ds <;> cases t <;> exact ⟨rfl, rfl⟩

/-- C5: copying has value semantics: for each of the ten record types and every
record `o`, the copy equals `o` field for field, and after any run of
assignments to the copy (also `push_back` on the copied `device_ids`) the
original still equals `o`.  In particular this holds for the `ReduceOptions`
with `reduceOp = MAX`, `rootRank = 3`, `rootTensor = 1`, `timeout = 500 ms`. -/
theorem copy_has_value_semantics :
    (∀ o : BroadcastOptions,
      o.copy = o ∧
      (o.copy).rootRank = o.rootRank ∧
      (o.copy).rootTensor = o.rootTensor ∧
      (o.copy).timeout = o.timeout ∧
      ∀ as : List BroadcastOptions.Assign,
        (as.foldl (Vars.assignCopied BroadcastOptions.assign)
          (Vars.copyInit BroadcastOptions.copy o)).original = o) ∧
    (∀ o : AllreduceOptions,
      o.copy = o ∧
      (o.copy).reduceOp = o.reduceOp ∧
      (o.copy).timeout = o.timeout ∧
      ∀ as : List AllreduceOptions.Assign,
        (as.foldl (Vars.assignCopied AllreduceOptions.assign)
          (Vars.copyInit AllreduceOptions.copy o)).original = o) ∧
    (∀ o : AllreduceCoalescedOptions,
      o.copy = o ∧
      (o.copy).reduceOp = o.reduceOp ∧
      (o.copy).timeout = o.timeout ∧
      ∀ as : List AllreduceCoalescedOptions.Assign,
        (as.foldl (Vars.assignCopied AllreduceCoalescedOptions.assign)
          (Vars.copyInit AllreduceCoalescedOptions.copy o)).original = o) ∧
    (∀ o : ReduceOptions,
      o.copy = o ∧
      (o.copy).reduceOp = o.reduceOp ∧
      (o.copy).rootRank = o.rootRank ∧
      (o.copy).rootTensor = o.rootTensor ∧
      (o.copy).timeout = o.timeout ∧
      ∀ as : List ReduceOptions.Assign,
        (as.foldl (Vars.assignCopied ReduceOptions.assign)
          (Vars.copyInit ReduceOptions.copy o)).original = o) ∧
    (∀ o : AllgatherOptions,
      o.copy = o ∧
      (o.copy).timeout = o.timeout ∧
      ∀ as : List AllgatherOptions.Assign,
        (as.foldl (Vars.assignCopied AllgatherOptions.assign)
          (Vars.copyInit AllgatherOptions.copy o)).original = o) ∧
    (∀ o : GatherOptions,
      o.copy = o ∧
      (o.copy).rootRank = o.rootRank ∧
      (o.copy).timeout = o.timeout ∧
      ∀ as : List GatherOptions.Assign,
        (as.foldl (Vars.assignCopied GatherOptions.assign)
          (Vars.copyInit GatherOptions.copy o)).original = o) ∧
    (∀ o : ScatterOptions,
      o.copy = o ∧
      (o.copy).rootRank = o.rootRank ∧
      (o.copy).timeout = o.timeout ∧
      ∀ as : List ScatterOptions.Assign,
        (as.foldl (Vars.assignCopied ScatterOptions.assign)
          (Vars.copyInit ScatterOptions.copy o)).original = o) ∧
    (∀ o : ReduceScatterOptions,
      o.copy = o ∧
      (o.copy).reduceOp = o.reduceOp ∧
      (o.copy).timeout = o.timeout ∧
      ∀ as : List ReduceScatterOptions.Assign,
        (as.foldl (Vars.assignCopied ReduceScatterOptions.assign)
          (Vars.copyInit ReduceScatterOptions.copy o)).original = o) ∧
    (∀ o : AllToAllOptions,
      o.copy = o ∧
      (o.copy).timeout = o.timeout ∧
      ∀ as : List AllToAllOptions.Assign,
        (as.foldl (Vars.assignCopied AllToAllOptions.assign)
          (Vars.copyInit AllToAllOptions.copy o)).original = o) ∧
    (∀ o : BarrierOptions,
      o.copy = o ∧
      (o.copy).device_ids = o.device_ids ∧
      (o.copy).timeout = o.timeout ∧
      ∀ as : List BarrierOptions.Assign,
        (as.foldl (Vars.assignCopied BarrierOptions.assign)
          (Vars.copyInit BarrierOptions.copy o)).original = o) ∧
    ((ReduceOptions.mk ReduceOp.MAX 3 1 ⟨500⟩).copy = ReduceOptions.mk ReduceOp.MAX 3 1 ⟨500⟩ ∧
      ((Vars.copyInit ReduceOptions.copy (ReduceOptions.mk ReduceOp.MAX 3 1 ⟨500⟩)).assignCopied
          ReduceOptions.assign (ReduceOptions.Assign.rootRank 7)).original
        = ReduceOptions.mk ReduceOp.MAX 3 1 ⟨500⟩ ∧
      ((Vars.copyInit BarrierOptions.copy (BarrierOptions.mk [4, 5] ⟨500⟩)).assignCopied
          BarrierOptions.assign (BarrierOptions.Assign.push_back 6)).original.device_ids = [4, 5]) := by
  refine ⟨?_, ?_, ?_, ?_, ?_, ?_, ?_, ?_, ?_, ?_, ⟨rfl, rfl, rfl⟩⟩
  · intro o
    exact ⟨rfl, rfl, rfl, rfl,
      fun as => Vars.foldl_assignCopied_original BroadcastOptions.assign as _⟩
  · intro o
    exact ⟨rfl, rfl, rfl,
      fun as => Vars.foldl_assignCopied_original AllreduceOptions.assign as _⟩
  · intro o
    exact ⟨rfl, rfl, rfl,
      fun as => Vars.foldl_assignCopied_original AllreduceCoalescedOptions.assign as _⟩
  · intro o
    exact ⟨rfl, rfl, rfl, rfl, rfl,
      fun as => Vars.foldl_assignCopied_original ReduceOptions.assign as _⟩
  · intro o
    exact ⟨rfl, rfl,
      fun as => Vars.foldl_assignCopied_original AllgatherOptions.assign as _⟩
  · intro o
    exact ⟨rfl, rfl, rfl,
      fun as => Vars.foldl_assignCopied_original GatherOptions.assign as _⟩
  · intro o
    exact ⟨rfl, rfl, rfl,
      fun as => Vars.foldl_assignCopied_original ScatterOptions.assign as _⟩
  · intro o
    exact ⟨rfl, rfl, rfl,
      fun as => Vars.foldl_assignCopied_original ReduceScatterOptions.assign as _⟩
  · intro o
    exact ⟨rfl, rfl,
      fun as => Vars.foldl_assignCopied_original AllToAllOptions.assign as _⟩
  · intro o
    exact ⟨rfl, rfl, rfl,
      fun as => Vars.foldl_assignCopied_original BarrierOptions.assign as _⟩

/-- C6: `BarrierOptions.device_ids` is an insertion-ordered sequence: it is empty
on default construction, and appending the elements of any list `xs` one by
one to the `device_ids` of a default-constructed record gives a sequence of
length `xs.length` whose `i`-th element is `xs[i]` for every `i < xs.length`,
the `timeout` still being the sentinel. -/
theorem device_ids_insertion_ordered :
    BarrierOptions.defaultCtor.device_ids = [] ∧
    (∀ xs : List Int,
      (BarrierOptions.defaultCtor.appendAll xs).device_ids.length = xs.length ∧
      (∀ (i : Nat) (hi : i < xs.length),
        (BarrierOptions.defaultCtor.appendAll xs).device_ids[i]? = some xs[i]) ∧
      (BarrierOptions.defaultCtor.appendAll xs).device_ids = xs ∧
      (BarrierOptions.defaultCtor.appendAll xs).timeout = kUnsetTimeout) := by
  refine ⟨rfl, ?_⟩
  intro xs
  have h := BarrierOptions.appendAll_spec xs BarrierOptions.defaultCtor
  have hd : (BarrierOptions.defaultCtor.appendAll xs).device_ids = xs := by
    rw [h.1]
    rfl
  refine ⟨by rw [hd], ?_, hd, ?_⟩
  · intro i hi
    rw [hd]
    exact List.getElem?_eq_getElem hi
  · rw [h.2]
    rfl

/-- Witness for C6: appending 7, 3, 7, 1 in this order; the element at index 1
is 3. -/
theorem device_ids_insertion_ordered_witness :
    1 < [(7 : Int), 3, 7, 1].length ∧
    (BarrierOptions.defaultCtor.appendAll [7, 3, 7, 1]).device_ids[1]? = some 3 ∧
    (BarrierOptions.defaultCtor.appendAll [7, 3, 7, 1]).device_ids.length = 4 :=
  ⟨by decide,
    (device_ids_insertion_ordered.2 [7, 3, 7, 1]).2.1 1 (by decide),
    (device_ids_insertion_ordered.2 [7, 3, 7, 1]).1⟩

/-- C8, as stated, fails: a default-constructed `BroadcastOptions` whose
`timeout` is assigned -5 ms holds a timeout that is neither the sentinel nor
non-negative. -/
theorem timeout_invariant_counterexample :
    ([BroadcastOptions.Assign.timeout ⟨-5⟩].foldl BroadcastOptions.assign
        BroadcastOptions.defaultCtor).timeout ≠ kUnsetTimeout ∧
    ¬ 0 ≤ ([BroadcastOptions.Assign.timeout ⟨-5⟩].foldl BroadcastOptions.assign
        BroadcastOptions.defaultCtor).timeout.count := by
  decide

/-- C8, amended: for each of the ten record types, in every record reached from
default construction by a run of field assignments in which every value
assigned to `timeout` is the sentinel or non-negative (`validTimeout`), the
`timeout` field is the sentinel or non-negative. -/
theorem timeout_invariant_given_valid_assignments :
    (∀ as : List BroadcastOptions.Assign,
      (∀ t, BroadcastOptions.Assign.timeout t ∈ as → validTimeout t) →
      validTimeout (as.foldl BroadcastOptions.assign BroadcastOptions.defaultCtor).timeout) ∧
    (∀ as : List AllreduceOptions.Assign,
      (∀ t, AllreduceOptions.Assign.timeout t ∈ as → validTimeout t) →
      validTimeout (as.foldl AllreduceOptions.assign AllreduceOptions.defaultCtor).timeout) ∧
    (∀ as : List AllreduceCoalescedOptions.Assign,
      (∀ t, AllreduceCoalescedOptions.Assign.timeout t ∈ as → validTimeout t) →
      validTimeout (as.foldl AllreduceCoalescedOptions.assign AllreduceCoalescedOptions.defaultCtor).timeout) ∧
    (∀ as : List ReduceOptions.Assign,
      (∀ t, ReduceOptions.Assign.timeout t ∈ as → validTimeout t) →
      validTimeout (as.foldl ReduceOptions.assign ReduceOptions.defaultCtor).timeout) ∧
    (∀ as : List AllgatherOptions.Assign,
      (∀ t, AllgatherOptions.Assign.timeout t ∈ as → validTimeout t) →
      validTimeout (as.foldl AllgatherOptions.assign AllgatherOptions.defaultCtor).timeout) ∧
    (∀ as : List GatherOptions.Assign,
      (∀ t, GatherOptions.Assign.timeout t ∈ as → validTimeout t) →
      validTimeout (as.foldl GatherOptions.assign GatherOptions.defaultCtor).timeout) ∧
    (∀ as : List ScatterOptions.Assign,
      (∀ t, ScatterOptions.Assign.timeout t ∈ as → validTimeout t) →
      validTimeout (as.foldl ScatterOptions.assign ScatterOptions.defaultCtor).timeout) ∧
    (∀ as : List ReduceScatterOptions.Assign,
      (∀ t, ReduceScatterOptions.Assign.timeout t ∈ as → validTimeout t) →
      validTimeout (as.foldl ReduceScatterOptions.assign ReduceScatterOptions.defaultCtor).timeout) ∧
    (∀ as : List AllToAllOptions.Assign,
      (∀ t, AllToAllOptions.Assign.timeout t ∈ as → validTimeout t) →
      validTimeout (as.foldl AllToAllOptions.assign AllToAllOptions.defaultCtor).timeout) ∧
    (∀ as : List BarrierOptions.Assign,
      (∀ t, BarrierOptions.Assign.timeout t ∈ as → validTimeout t) →
      validTimeout (as.foldl BarrierOptions.assign BarrierOptions.defaultCtor).timeout) :=
  ⟨fun as h => validTimeout_foldl_BroadcastOptions as _ (Or.inl rfl) h,
    fun as h => validTimeout_foldl_AllreduceOptions as _ (Or.inl rfl) h,
    fun as h => validTimeout_foldl_AllreduceCoalescedOptions as _ (Or.inl rfl) h,
    fun as h => validTimeout_foldl_ReduceOptions as _ (Or.inl rfl) h,
    fun as h => validTimeout_foldl_AllgatherOptions as _ (Or.inl rfl) h,
    fun as h => validTimeout_foldl_GatherOptions as _ (Or.inl rfl) h,
    fun as h => validTimeout_foldl_ScatterOptions as _ (Or.inl rfl) h,
    fun as h => validTimeout_foldl_ReduceScatterOptions as _ (Or.inl rfl) h,
    fun as h => validTimeout_foldl_AllToAllOptions as _ (Or.inl rfl) h,
    fun as h => validTimeout_foldl_BarrierOptions as _ (Or.inl rfl) h⟩

/-- Witness for C8, amended: a `ReduceOptions` assigned a timeout of 500 ms, a
root rank, then a timeout of 0 ms. -/
theorem timeout_invariant_given_valid_assignments_witness :
    (∀ t, ReduceOptions.Assign.timeout t ∈
        [ReduceOptions.Assign.timeout ⟨500⟩, ReduceOptions.Assign.rootRank (-4),
          ReduceOptions.Assign.timeout ⟨0⟩] → validTimeout t) ∧
    validTimeout
      ([ReduceOptions.Assign.timeout ⟨500⟩, ReduceOptions.Assign.rootRank (-4),
          ReduceOptions.Assign.timeout ⟨0⟩].foldl ReduceOptions.assign
        ReduceOptions.defaultCtor).timeout := by
  have hyp : ∀ t, ReduceOptions.Assign.timeout t ∈
      [ReduceOptions.Assign.timeout ⟨500⟩, ReduceOptions.Assign.rootRank (-4),
        ReduceOptions.Assign.timeout ⟨0⟩] → validTimeout t := by
    intro t ht
    simp only [List.mem_cons, ReduceOptions.Assign.timeout.injEq, List.mem_singleton,
      reduceCtorEq, false_or, List.not_mem_nil, or_false] at ht
    rcases ht with h | h <;> subst h <;> exact Or.inr (by decide)
  exact ⟨hyp, timeout_invariant_given_valid_assignments.2.2.2.1 _ hyp⟩

/-- C10: construction and field assignment never fail and never validate or
alter the values supplied: for each of the ten record types, for every
integer `rootRank` and `rootTensor` (so for every signed 64-bit one, negative
and extreme ones included), every `ReduceOp`, every timeout and every
device-id sequence, the record built from these values holds exactly them,
and assigning a field of any record stores exactly the value supplied; a
`push_back` stores the element unchanged at the end.  Construction and
assignment are total functions, so they cannot fail. -/
theorem construction_and_assignment_never_validate :
    (∀ (o : BroadcastOptions) (r : Int) (k : Int) (t : milliseconds),
      BroadcastOptions.assignSubset (some r) (some k) (some t) = BroadcastOptions.mk r k t ∧
      (BroadcastOptions.assignSubset (some r) (some k) (some t)).rootRank = r ∧
      (BroadcastOptions.assignSubset (some r) (some k) (some t)).rootTensor = k ∧
      (BroadcastOptions.assignSubset (some r) (some k) (some t)).timeout = t ∧
      (o.assign (BroadcastOptions.Assign.rootRank r)).rootRank = r ∧
      (o.assign (BroadcastOptions.Assign.rootTensor k)).rootTensor = k ∧
      (o.assign (BroadcastOptions.Assign.timeout t)).timeout = t) ∧
    (∀ (o : AllreduceOptions) (op : ReduceOp) (t : milliseconds),
      AllreduceOptions.assignSubset (some op) (some t) = AllreduceOptions.mk op t ∧
      (AllreduceOptions.assignSubset (some op) (some t)).reduceOp = op ∧
      (AllreduceOptions.assignSubset (some op) (some t)).timeout = t ∧
      (o.assign (AllreduceOptions.Assign.reduceOp op)).reduceOp = op ∧
      (o.assign (AllreduceOptions.Assign.timeout t)).timeout = t) ∧
    (∀ (o : AllreduceCoalescedOptions) (op : ReduceOp) (t : milliseconds),
      AllreduceCoalescedOptions.assignSubset (some op) (some t) = AllreduceCoalescedOptions.mk (AllreduceOptions.mk op t) ∧
      (AllreduceCoalescedOptions.assignSubset (some op) (some t)).reduceOp = op ∧
      (AllreduceCoalescedOptions.assignSubset (some op) (some t)).timeout = t ∧
      (o.assign (AllreduceCoalescedOptions.Assign.reduceOp op)).reduceOp = op ∧
      (o.assign (AllreduceCoalescedOptions.Assign.timeout t)).timeout = t) ∧
    (∀ (o : ReduceOptions) (op : ReduceOp) (r : Int) (k : Int) (t : milliseconds),
      ReduceOptions.assignSubset (some op) (some r) (some k) (some t) = ReduceOptions.mk op r k t ∧
      (ReduceOptions.assignSubset (some op) (some r) (some k) (some t)).reduceOp = op ∧
      (ReduceOptions.assignSubset (some op) (some r) (some k) (some t)).rootRank = r ∧
      (ReduceOptions.assignSubset (some op) (some r) (some k) (some t)).rootTensor = k ∧
      (ReduceOptions.assignSubset (some op) (some r) (some k) (some t)).timeout = t ∧
      (o.assign (ReduceOptions.Assign.reduceOp op)).reduceOp = op ∧
      (o.assign (ReduceOptions.Assign.rootRank r)).rootRank = r ∧
      (o.assign (ReduceOptions.Assign.rootTensor k)).rootTensor = k ∧
      (o.assign (ReduceOptions.Assign.timeout t)).timeout = t) ∧
    (∀ (o : AllgatherOptions) (t : milliseconds),
      AllgatherOptions.assignSubset (some t) = AllgatherOptions.mk t ∧
      (AllgatherOptions.assignSubset (some t)).timeout = t ∧
      (o.assign (AllgatherOptions.Assign.timeout t)).timeout = t) ∧
    (∀ (o : GatherOptions) (r : Int) (t : milliseconds),
      GatherOptions.assignSubset (some r) (some t) = GatherOptions.mk r t ∧
      (GatherOptions.assignSubset (some r) (some t)).rootRank = r ∧
      (GatherOptions.assignSubset (some r) (some t)).timeout = t ∧
      (o.assign (GatherOptions.Assign.rootRank r)).rootRank = r ∧
      (o.assign (GatherOptions.Assign.timeout t)).timeout = t) ∧
    (∀ (o : ScatterOptions) (r : Int) (t : milliseconds),
      ScatterOptions.assignSubset (some r) (some t) = ScatterOptions.mk r t ∧
      (ScatterOptions.assignSubset (some r) (some t)).rootRank = r ∧
      (ScatterOptions.assignSubset (some r) (some t)).timeout = t ∧
      (o.assign (ScatterOptions.Assign.rootRank r)).rootRank = r ∧
      (o.assign (ScatterOptions.Assign.timeout t)).timeout = t) ∧
    (∀ (o : ReduceScatterOptions) (op : ReduceOp) (t : milliseconds),
      ReduceScatterOptions.assignSubset (some op) (some t) = ReduceScatterOptions.mk op t ∧
      (ReduceScatterOptions.assignSubset (some op) (some t)).reduceOp = op ∧
      (ReduceScatterOptions.assignSubset (some op) (some t)).timeout = t ∧
      (o.assign (ReduceScatterOptions.Assign.reduceOp op)).reduceOp = op ∧
      (o.assign (ReduceScatterOptions.Assign.timeout t)).timeout = t) ∧
    (∀ (o : AllToAllOptions) (t : milliseconds),
      AllToAllOptions.assignSubset (some t) = AllToAllOptions.mk t ∧
      (AllToAllOptions.assignSubset (some t)).timeout = t ∧
      (o.assign (AllToAllOptions.Assign.timeout t)).timeout = t) ∧
    (∀ (o : BarrierOptions) (ds : List Int) (t : milliseconds),
      BarrierOptions.assignSubset (some ds) (some t) = BarrierOptions.mk ds t ∧
      (BarrierOptions.assignSubset (some ds) (some t)).device_ids = ds ∧
      (BarrierOptions.assignSubset (some ds) (some t)).timeout = t ∧
      (o.assign (BarrierOptions.Assign.device_ids ds)).device_ids = ds ∧
      (o.assign (BarrierOptions.Assign.timeout t)).timeout = t) ∧
    (∀ (o : BarrierOptions) (x : Int),
      (o.assign (BarrierOptions.Assign.push_back x)).device_ids = o.device_ids ++ [x]) ∧
    ((BarrierOptions.assignSubset (some []) none).device_ids = [] ∧
      (ReduceOptions.assignSubset (some ReduceOp.BXOR) (some (-(2 : Int) ^ 63))
          (some ((2 : Int) ^ 63 - 1)) (some ⟨-7⟩))
        = ReduceOptions.mk ReduceOp.BXOR (-(2 : Int) ^ 63) ((2 : Int) ^ 63 - 1) ⟨-7⟩) := by
  refine ⟨?_, ?_, ?_, ?_, ?_, ?_, ?_, ?_, ?_, ?_, fun _ _ => rfl, ⟨rfl, rfl⟩⟩
  · intro o r k t
    exact ⟨rfl, rfl, rfl, rfl, rfl, rfl, rfl⟩
  · intro o op t
    exact ⟨rfl, rfl, rfl, rfl, rfl⟩
  · intro o op t
    exact ⟨rfl, rfl, rfl, rfl, rfl⟩
  · intro o op r k t
    exact ⟨rfl, rfl, rfl, rfl, rfl, rfl, rfl, rfl, rfl⟩
  · intro o t
    exact ⟨rfl, rfl, rfl⟩
  · intro o r t
    exact ⟨rfl, rfl, rfl, rfl, rfl⟩
  · intro o r t
    exact ⟨rfl, rfl, rfl, rfl, rfl⟩
  · intro o op t
    exact ⟨rfl, rfl, rfl, rfl, rfl⟩
  · intro o t
    exact ⟨rfl, rfl, rfl⟩
  · intro o ds t
    exact ⟨rfl, rfl, rfl, rfl, rfl⟩

/-- C11: the encoding of `ReduceOp` as an unsigned 8-bit integer assigns the
codes 0 to 8 in declaration order (`SUM = 0`, `AVG = 1`, `PRODUCT = 2`,
`MIN = 3`, `MAX = 4`, `BAND = 5`, `BOR = 6`, `BXOR = 7`, `UNUSED = 8`); it is
injective; every code is below 256 and is unchanged by storing it in 8 bits;
and decoding a code in 0..8 gives one of the nine variants, whose code is the
one decoded. -/
theorem ReduceOp_encoding_codes_injective_roundtrip :
    (ReduceOp.SUM.toUInt8 = 0 ∧ ReduceOp.AVG.toUInt8 = 1 ∧ ReduceOp.PRODUCT.toUInt8 = 2 ∧
      ReduceOp.MIN.toUInt8 = 3 ∧ ReduceOp.MAX.toUInt8 = 4 ∧ ReduceOp.BAND.toUInt8 = 5 ∧
      ReduceOp.BOR.toUInt8 = 6 ∧ ReduceOp.BXOR.toUInt8 = 7 ∧ ReduceOp.UNUSED.toUInt8 = 8) ∧
    ReduceOp.all.map ReduceOp.toUInt8 = List.range 9 ∧
    Function.Injective ReduceOp.toUInt8 ∧
    (∀ op ∈ ReduceOp.all, op.toUInt8 ≤ 8) ∧
    (∀ op : ReduceOp, op.toUInt8 < 256 ∧ wrapUInt8 op.toUInt8 = op.toUInt8) ∧
    (∀ c : Nat, c ≤ 8 →
      ∃ op : ReduceOp, op ∈ ReduceOp.all ∧ ReduceOp.ofUInt8 c = op ∧ op.toUInt8 = c) ∧
    (∀ op : ReduceOp, ReduceOp.ofUInt8 op.toUInt8 = op) := by
  refine ⟨⟨rfl, rfl, rfl, rfl, rfl, rfl, rfl, rfl, rfl⟩, by decide, ?_, ?_, ?_, ?_, ?_⟩
  · rintro ⟨⟨a, ha⟩⟩ ⟨⟨b, hb⟩⟩ h
    simp only [ReduceOp.toUInt8] at h
    subst h
    rfl
  · intro op hop
    simp only [ReduceOp.all, List.mem_cons, List.mem_singleton, List.not_mem_nil,
      or_false] at hop
    rcases hop with h | h | h | h | h | h | h | h | h <;> subst h <;> decide
  · rintro ⟨⟨n, hn⟩⟩
    exact ⟨hn, Nat.mod_eq_of_lt hn⟩
  · intro c hc
    interval_cases c
    · exact ⟨.SUM, by decide, rfl, rfl⟩
    · exact ⟨.AVG, by decide, rfl, rfl⟩
    · exact ⟨.PRODUCT, by decide, rfl, rfl⟩
    · exact ⟨.MIN, by decide, rfl, rfl⟩
    · exact ⟨.MAX, by decide, rfl, rfl⟩
    · exact ⟨.BAND, by decide, rfl, rfl⟩
    · exact ⟨.BOR, by decide, rfl, rfl⟩
    · exact ⟨.BXOR, by decide, rfl, rfl⟩
    · exact ⟨.UNUSED, by decide, rfl, rfl⟩
  · rintro ⟨⟨n, hn⟩⟩
    simp only [ReduceOp.ofUInt8, ReduceOp.toUInt8, wrapUInt8, ReduceOp.mk.injEq, Fin.ext_iff]
    exact Nat.mod_eq_of_lt hn

/-- Witness for C11 at the code 4: it is at most 8, it decodes to `MAX`, and
`MAX` encodes to 4. -/
theorem ReduceOp_encoding_codes_injective_roundtrip_witness :
    (4 : Nat) ≤ 8 ∧
    ∃ op : ReduceOp, op ∈ ReduceOp.all ∧ ReduceOp.ofUInt8 4 = op ∧ op.toUInt8 = 4 :=
  ⟨by decide, ReduceOp_encoding_codes_injective_roundtrip.2.2.2.2.2.1 4 (by decide)⟩

end c10d
